import Mathlib

/-!
Verification development for the pocketscion-configurator repository.

The embedding models the configuration-to-model compiler of
`src/main.rs`: JSON-level configuration documents (field presence modelled
with `Option`), serde-style deserialization into the typed config
structures, topology construction (`build_topology_from_config`), and the
assembly loops of `main` that populate the system state and the IO
binding overlay before the runtime is started.

Library types that the configurator calls but whose code is not part of
this repository's sources (the ISD-AS parser of `scion_proto`, the
`ScionTopology` operations and the `SharedPocketScionState` /
`SharedPocketScionIoConfig` registries of `pocketscion`) are modelled
from the specification; each such definition carries a doc comment
saying so.
-/

/-- Decidable equality of `Except` results, used to evaluate the model on
concrete inputs. -/
instance {ε α : Type} [DecidableEq ε] [DecidableEq α] : DecidableEq (Except ε α) := fun x y =>
  match x, y with
  | .ok a, .ok b => if h : a = b then isTrue (by simp [h]) else isFalse (by simp [h])
  | .error a, .error b => if h : a = b then isTrue (by simp [h]) else isFalse (by simp [h])
  | .ok _, .error _ => isFalse (by simp)
  | .error _, .ok _ => isFalse (by simp)

/-- Socket addresses are opaque to the configurator; modelled as strings. -/
abbrev SocketAddr := String

/-- Network prefixes (`IpNet`) are opaque to the configurator; modelled as strings. -/
abbrev IpNet := String

/-- Modelled from the spec: the two-part hierarchical AS identifier
(isolation-domain number, AS number) of `scion_proto::address::IsdAsn`,
which is not part of this repository's sources. -/
structure IsdAsn where
  isd : Nat
  asn : Nat
  deriving DecidableEq

/-- Error kinds of the configuration-load operation (section 7 of the spec;
in the code these are `anyhow` errors produced by serde, the identifier
parsers and the topology builder). -/
inductive LoadError where
  | malformedDocument (msg : String)
  | missingRequiredAddress (which : String)
  | invalidIdentifier (s : String)
  | invalidInterfaceId
  | invalidLinkSpec (s : String)
  | unknownAsInLink (a : IsdAsn)
  | duplicateAs (a : IsdAsn)
  deriving DecidableEq

/-- Split a list of characters at every occurrence of the separator. -/
def splitOnChar (sep : Char) : List Char → List (List Char)
  | [] => [[]]
  | c :: rest =>
    let r := splitOnChar sep rest
    if c = sep then
      [] :: r
    else
      match r with
      | [] => [[c]]
      | h :: t => (c :: h) :: t

/-- Numeric value of a decimal digit character, if it is one. -/
def digitVal (c : Char) : Option Nat :=
  if 48 ≤ c.toNat ∧ c.toNat ≤ 57 then some (c.toNat - 48) else none

/-- Accumulator loop reading a decimal number from characters. -/
def natFromDigitsAux : List Char → Nat → Option Nat
  | [], acc => some acc
  | c :: rest, acc =>
    match digitVal c with
    | none => none
    | some d => natFromDigitsAux rest (acc * 10 + d)

/-- Read a non-empty all-digit character list as a decimal number. -/
def natFromDigits (l : List Char) : Option Nat :=
  match l with
  | [] => none
  | _ => natFromDigitsAux l 0

/-- Modelled from the spec: parsing the textual form
"isolation-domain-number" of an AS identifier (section 4.1) — exactly one
separator, both parts numeric, isolation domain below 2^16 and AS number
below 2^48; the concrete parser lives in `scion_proto`, outside this
repository's sources. -/
def parseIsdAsnChars (l : List Char) : Option IsdAsn :=
  match splitOnChar '-' l with
  | [a, b] =>
    match natFromDigits a, natFromDigits b with
    | some i, some n =>
      if i < 65536 ∧ n < 281474976710656 then some ⟨i, n⟩ else none
    | _, _ => none
  | _ => none

/-- Parse a textual AS identifier, failing with `InvalidIdentifier`. -/
def parseIsdAsn (s : String) : Except LoadError IsdAsn :=
  match parseIsdAsnChars s.data with
  | some a => .ok a
  | none => .error (.invalidIdentifier s)

/-- Modelled from the spec: the textual form of a bare isolation-domain
identifier (glossary and section 4.1) — a non-empty decimal number below
2^16, without an AS-number part. -/
def isIsolationDomainId (s : String) : Bool :=
  match natFromDigits s.data with
  | some n => n < 65536
  | none => false

/-- Modelled from the spec: an AS node of the topology (`ScionAs` of
`pocketscion`, not part of this repository's sources) — AS identifier plus
the is-core flag. -/
structure ScionAs where
  isd_as : IsdAsn
  core : Bool
  deriving DecidableEq

/-- Constructor for a non-core AS (`ScionAs::new`). -/
def ScionAs.new (a : IsdAsn) : ScionAs := ⟨a, false⟩

/-- Constructor for a core AS (`ScionAs::new_core`). -/
def ScionAs.new_core (a : IsdAsn) : ScionAs := ⟨a, true⟩

/-- A link between two AS identifiers, as parsed from a link spec string. -/
abbrev Link := IsdAsn × IsdAsn

/-- Modelled from the spec: the AS-graph (`ScionTopology` of `pocketscion`,
not part of this repository's sources) — the set of AS nodes and links,
built incrementally. -/
structure ScionTopology where
  ases : List ScionAs
  links : List Link
  deriving DecidableEq

/-- Empty topology (`ScionTopology::new`). -/
def ScionTopology.new : ScionTopology := ⟨[], []⟩

/-- Whether an AS identifier was already added to the topology. -/
def ScionTopology.containsAs (t : ScionTopology) (a : IsdAsn) : Bool :=
  t.ases.any (fun x => decide (x.isd_as = a))

/-- Modelled from the spec: `add_as` inserts a new AS and fails with
`DuplicateAs` if the identifier already exists (section 4.2). -/
def ScionTopology.add_as (t : ScionTopology) (a : ScionAs) : Except LoadError ScionTopology :=
  if t.containsAs a.isd_as then
    .error (.duplicateAs a.isd_as)
  else
    .ok ⟨t.ases ++ [a], t.links⟩

/-- Modelled from the spec: `add_link` fails with `UnknownAsInLink` if
either endpoint was not previously added, else appends the link
(section 4.2). -/
def ScionTopology.add_link (t : ScionTopology) (l : Link) : Except LoadError ScionTopology :=
  if t.containsAs l.1 then
    if t.containsAs l.2 then
      .ok ⟨t.ases, t.links ++ [l]⟩
    else
      .error (.unknownAsInLink l.2)
  else
    .error (.unknownAsInLink l.1)

/-- Modelled from the spec: parsing the compact link encoding
(two AS identifiers joined by a colon, e.g. "1-11:1-12") into its two
endpoints; fails with `InvalidLinkSpec` on malformed encoding. -/
def parseLink (s : String) : Except LoadError Link :=
  match splitOnChar ':' s.data with
  | [a, b] =>
    match parseIsdAsnChars a, parseIsdAsnChars b with
    | some x, some y => .ok (x, y)
    | _, _ => .error (.invalidLinkSpec s)
  | _ => .error (.invalidLinkSpec s)

/-- One AS declaration of the topology section (`AsConfig` in main.rs). -/
structure AsConfig where
  isd_as : String
  core : Bool
  deriving DecidableEq

/-- Topology section of the configuration (`TopologyConfig` in main.rs). -/
structure TopologyConfig where
  ases : List AsConfig
  links : List String
  deriving DecidableEq

/-- One data plane of an access point (`DataPlaneConfig` in main.rs). -/
structure DataPlaneConfig where
  isd_as : String
  listening_addr : SocketAddr
  address_range : List IpNet
  deriving DecidableEq

/-- One access-point declaration (`SnapConfig` in main.rs). -/
structure SnapConfig where
  listening_addr : SocketAddr
  data_planes : List DataPlaneConfig
  deriving DecidableEq

/-- One host-API declaration (`EndhostApiConfig` in main.rs). -/
structure EndhostApiConfig where
  isds : List String
  listening_addr : SocketAddr
  deriving DecidableEq

/-- One router declaration (`RouterConfig` in main.rs); `local_addresses`
and `next_hops` carry `#[serde(default)]`. -/
structure RouterConfig where
  isd_as : String
  interfaces : List Nat
  local_addresses : List IpNet
  next_hops : List (String × SocketAddr)
  deriving DecidableEq

/-- The whole deserialized configuration document
(`PocketScionConfig` in main.rs). -/
structure PocketScionConfig where
  topology : TopologyConfig
  snaps : Option (List SnapConfig)
  endhost_apis : Option (List EndhostApiConfig)
  routers : Option (List RouterConfig)
  management_listen_addr : SocketAddr
  deriving DecidableEq

/-- JSON-level AS declaration: field presence modelled with `Option`. -/
structure AsJson where
  isd_as : Option String
  core : Option Bool
  deriving DecidableEq

/-- JSON-level topology section. -/
structure TopologyJson where
  ases : Option (List AsJson)
  links : Option (List String)
  deriving DecidableEq

/-- JSON-level data-plane declaration. -/
structure DataPlaneJson where
  isd_as : Option String
  listening_addr : Option SocketAddr
  address_range : Option (List IpNet)
  deriving DecidableEq

/-- JSON-level access-point declaration. -/
structure SnapJson where
  listening_addr : Option SocketAddr
  data_planes : Option (List DataPlaneJson)
  deriving DecidableEq

/-- JSON-level host-API declaration. -/
structure EndhostApiJson where
  isds : Option (List String)
  listening_addr : Option SocketAddr
  deriving DecidableEq

/-- JSON-level router declaration. -/
structure RouterJson where
  isd_as : Option String
  interfaces : Option (List Nat)
  local_addresses : Option (List IpNet)
  next_hops : Option (List (String × SocketAddr))
  deriving DecidableEq

/-- JSON-level configuration document. -/
structure PocketScionJson where
  topology : Option TopologyJson
  snaps : Option (List SnapJson)
  endhost_apis : Option (List EndhostApiJson)
  routers : Option (List RouterJson)
  management_listen_addr : Option SocketAddr
  deriving DecidableEq

/-- Serde-style deserialization of one number into a `u16` value:
values of 2^16 or more are rejected as structurally invalid. -/
def deserializeU16 (n : Nat) : Except LoadError Nat :=
  if n < 65536 then .ok n else .error (.malformedDocument ("integer out of range for u16"))

/-- Deserialize a list of interface numbers as `Vec<u16>` does. -/
def deserializeU16List : List Nat → Except LoadError (List Nat)
  | [] => .ok []
  | n :: rest =>
    match deserializeU16 n with
    | .error e => .error e
    | .ok m =>
      match deserializeU16List rest with
      | .error e => .error e
      | .ok l => .ok (m :: l)

/-- Deserialize one AS declaration: both fields are required. -/
def deserializeAs (j : AsJson) : Except LoadError AsConfig :=
  match j.isd_as with
  | none => .error (.malformedDocument ("missing field isd_as"))
  | some s =>
    match j.core with
    | none => .error (.malformedDocument ("missing field is_core"))
    | some b => .ok ⟨s, b⟩

/-- Deserialize the AS list element by element. -/
def deserializeAses : List AsJson → Except LoadError (List AsConfig)
  | [] => .ok []
  | a :: rest =>
    match deserializeAs a with
    | .error e => .error e
    | .ok c =>
      match deserializeAses rest with
      | .error e => .error e
      | .ok cs => .ok (c :: cs)

/-- Deserialize the topology section: both fields are required. -/
def deserializeTopology (j : TopologyJson) : Except LoadError TopologyConfig :=
  match j.ases with
  | none => .error (.malformedDocument ("missing field ases"))
  | some al =>
    match deserializeAses al with
    | .error e => .error e
    | .ok cs =>
      match j.links with
      | none => .error (.malformedDocument ("missing field links"))
      | some ls => .ok ⟨cs, ls⟩

/-- Deserialize one data plane: all three fields are required; a missing
listening address is a missing required address. -/
def deserializeDataPlane (j : DataPlaneJson) : Except LoadError DataPlaneConfig :=
  match j.isd_as with
  | none => .error (.malformedDocument ("missing field isd_as"))
  | some s =>
    match j.listening_addr with
    | none => .error (.missingRequiredAddress ("data_plane listening_addr"))
    | some a =>
      match j.address_range with
      | none => .error (.malformedDocument ("missing field address_range"))
      | some r => .ok ⟨s, a, r⟩

/-- Deserialize the data-plane list element by element. -/
def deserializeDataPlanes : List DataPlaneJson → Except LoadError (List DataPlaneConfig)
  | [] => .ok []
  | d :: rest =>
    match deserializeDataPlane d with
    | .error e => .error e
    | .ok c =>
      match deserializeDataPlanes rest with
      | .error e => .error e
      | .ok cs => .ok (c :: cs)

/-- Deserialize one access-point declaration: the control listening
address is mandatory (`listening_addr: SocketAddr` in the struct), as is
the data-plane list. -/
def deserializeSnap (j : SnapJson) : Except LoadError SnapConfig :=
  match j.listening_addr with
  | none => .error (.missingRequiredAddress ("snap listening_addr"))
  | some a =>
    match j.data_planes with
    | none => .error (.malformedDocument ("missing field data_planes"))
    | some dl =>
      match deserializeDataPlanes dl with
      | .error e => .error e
      | .ok ds => .ok ⟨a, ds⟩

/-- Deserialize the access-point list element by element. -/
def deserializeSnaps : List SnapJson → Except LoadError (List SnapConfig)
  | [] => .ok []
  | s :: rest =>
    match deserializeSnap s with
    | .error e => .error e
    | .ok c =>
      match deserializeSnaps rest with
      | .error e => .error e
      | .ok cs => .ok (c :: cs)

/-- Deserialize one host-API declaration: both fields are required. -/
def deserializeEndhostApi (j : EndhostApiJson) : Except LoadError EndhostApiConfig :=
  match j.isds with
  | none => .error (.malformedDocument ("missing field isds"))
  | some l =>
    match j.listening_addr with
    | none => .error (.missingRequiredAddress ("endhost_api listening_addr"))
    | some a => .ok ⟨l, a⟩

/-- Deserialize the host-API list element by element. -/
def deserializeEndhostApis : List EndhostApiJson → Except LoadError (List EndhostApiConfig)
  | [] => .ok []
  | s :: rest =>
    match deserializeEndhostApi s with
    | .error e => .error e
    | .ok c =>
      match deserializeEndhostApis rest with
      | .error e => .error e
      | .ok cs => .ok (c :: cs)

/-- Deserialize one router declaration: `isd_as` and `interfaces` are
required, `local_addresses` and `next_hops` default to empty
(`#[serde(default)]`); interface numbers must fit in a `u16`. -/
def deserializeRouter (j : RouterJson) : Except LoadError RouterConfig :=
  match j.isd_as with
  | none => .error (.malformedDocument ("missing field isd_as"))
  | some s =>
    match j.interfaces with
    | none => .error (.malformedDocument ("missing field interfaces"))
    | some il =>
      match deserializeU16List il with
      | .error e => .error e
      | .ok il2 => .ok ⟨s, il2, j.local_addresses.getD [], j.next_hops.getD []⟩

/-- Deserialize the router list element by element. -/
def deserializeRouters : List RouterJson → Except LoadError (List RouterConfig)
  | [] => .ok []
  | s :: rest =>
    match deserializeRouter s with
    | .error e => .error e
    | .ok c =>
      match deserializeRouters rest with
      | .error e => .error e
      | .ok cs => .ok (c :: cs)

/-- Deserialize an optional list-valued top-level field: an absent field
deserializes to `none`. -/
def deserializeOptList {α β : Type} (f : List α → Except LoadError (List β)) :
    Option (List α) → Except LoadError (Option (List β))
  | none => .ok none
  | some l =>
    match f l with
    | .error e => .error e
    | .ok r => .ok (some r)

/-- Deserialize the whole configuration document (`serde_json::from_str`
into `PocketScionConfig`): `topology` and `management_listen_addr` are
required, the three entity lists are optional. -/
def deserializeConfig (j : PocketScionJson) : Except LoadError PocketScionConfig :=
  match j.topology with
  | none => .error (.malformedDocument ("missing field topology"))
  | some tj =>
    match deserializeTopology tj with
    | .error e => .error e
    | .ok tc =>
      match deserializeOptList deserializeSnaps j.snaps with
      | .error e => .error e
      | .ok sOpt =>
        match deserializeOptList deserializeEndhostApis j.endhost_apis with
        | .error e => .error e
        | .ok eOpt =>
          match deserializeOptList deserializeRouters j.routers with
          | .error e => .error e
          | .ok rOpt =>
            match j.management_listen_addr with
            | none => .error (.missingRequiredAddress ("management_listen_addr"))
            | some a => .ok ⟨tc, sOpt, eOpt, rOpt, a⟩

/-- Add the declared ASes to the topology one by one, as the first loop of
`build_topology_from_config` does. -/
def addAses : ScionTopology → List AsConfig → Except LoadError ScionTopology
  | t, [] => .ok t
  | t, a :: rest =>
    match parseIsdAsn a.isd_as with
    | .error e => .error e
    | .ok ia =>
      match t.add_as (if a.core then ScionAs.new_core ia else ScionAs.new ia) with
      | .error e => .error e
      | .ok t2 => addAses t2 rest

/-- Add the declared links to the topology one by one, as the second loop
of `build_topology_from_config` does. -/
def addLinks : ScionTopology → List String → Except LoadError ScionTopology
  | t, [] => .ok t
  | t, s :: rest =>
    match parseLink s with
    | .error e => .error e
    | .ok l =>
      match t.add_link l with
      | .error e => .error e
      | .ok t2 => addLinks t2 rest

/-- The `build_topology_from_config` function of main.rs: a pass over the
AS list followed by a pass over the link strings. -/
def build_topology_from_config (cfg : TopologyConfig) : Except LoadError ScionTopology :=
  match addAses ScionTopology.new cfg.ases with
  | .error e => .error e
  | .ok t => addLinks t cfg.links

/-- Modelled from the spec: the random-number generator handed to a data
plane, recorded by its seed (`ChaCha8Rng::seed_from_u64`); the generator
itself lives outside this repository's sources. -/
structure Rng where
  seed : Nat
  deriving DecidableEq

/-- Seed construction (`ChaCha8Rng::seed_from_u64`). -/
def Rng.seed_from_u64 (n : Nat) : Rng := ⟨n % 18446744073709551616⟩

/-- Registered data plane of an access point. -/
structure SnapDataPlane where
  snapId : Nat
  isd_as : IsdAsn
  address_range : List IpNet
  rng : Rng
  deriving DecidableEq

/-- Registered router entity. -/
structure Router where
  isd_as : IsdAsn
  interfaces : List Nat
  local_addresses : List IpNet
  next_hops : List (String × SocketAddr)
  deriving DecidableEq

/-- Modelled from the spec: the aggregate system state
(`SharedPocketScionState` of `pocketscion`, not part of this repository's
sources) — topology plus the registered entities, each keyed by an
identifier drawn from a process-local incrementing counter
(sections 3 and 4.3). -/
structure SystemState where
  counter : Nat
  topology : Option ScionTopology
  snaps : List Nat
  snapDataPlanes : List (Nat × SnapDataPlane)
  endhostApis : List (Nat × List IsdAsn)
  routers : List (Nat × Router)
  deriving DecidableEq

/-- Fresh system state (`SharedPocketScionState::new`). -/
def SystemState.new : SystemState := ⟨0, none, [], [], [], []⟩

/-- Install the topology (`set_topology`). -/
def SystemState.set_topology (st : SystemState) (t : ScionTopology) : SystemState :=
  { st with topology := some t }

/-- Register a new access point and return its generated identifier
(`add_snap`). -/
def SystemState.add_snap (st : SystemState) : Nat × SystemState :=
  (st.counter,
    { st with counter := st.counter + 1, snaps := st.snaps ++ [st.counter] })

/-- Register a new data plane under an access point and return its
generated identifier (`add_snap_data_plane`). -/
def SystemState.add_snap_data_plane (st : SystemState) (snapId : Nat) (a : IsdAsn)
    (range : List IpNet) (rng : Rng) : Nat × SystemState :=
  (st.counter,
    { st with counter := st.counter + 1,
              snapDataPlanes := st.snapDataPlanes ++ [(st.counter, ⟨snapId, a, range, rng⟩)] })

/-- Register a new host API and return its generated identifier
(`add_endhost_api`). -/
def SystemState.add_endhost_api (st : SystemState) (isds : List IsdAsn) : Nat × SystemState :=
  (st.counter,
    { st with counter := st.counter + 1,
              endhostApis := st.endhostApis ++ [(st.counter, isds)] })

/-- Register a new router (`add_router`; the call site discards the
identifier). -/
def SystemState.add_router (st : SystemState) (a : IsdAsn) (ifs : List Nat)
    (locals : List IpNet) (nhs : List (String × SocketAddr)) : SystemState :=
  { st with counter := st.counter + 1,
            routers := st.routers ++ [(st.counter, ⟨a, ifs, locals, nhs⟩)] }

/-- Modelled from the spec: the binding overlay
(`SharedPocketScionIoConfig` of `pocketscion`, not part of this
repository's sources) — mappings from generated entity identifiers to the
addresses the runtime should listen on (section 4.4). -/
structure IoConfig where
  snapControlAddrs : List (Nat × SocketAddr)
  snapDataPlaneAddrs : List (Nat × SocketAddr)
  endhostApiAddrs : List (Nat × SocketAddr)
  deriving DecidableEq

/-- Fresh binding overlay (`SharedPocketScionIoConfig::new`). -/
def IoConfig.new : IoConfig := ⟨[], [], []⟩

/-- Record the control-plane address of an access point
(`set_snap_control_addr`). -/
def IoConfig.set_snap_control_addr (io : IoConfig) (id : Nat) (a : SocketAddr) : IoConfig :=
  { io with snapControlAddrs := io.snapControlAddrs ++ [(id, a)] }

/-- Record the address of a data plane (`set_snap_data_plane_addr`). -/
def IoConfig.set_snap_data_plane_addr (io : IoConfig) (id : Nat) (a : SocketAddr) : IoConfig :=
  { io with snapDataPlaneAddrs := io.snapDataPlaneAddrs ++ [(id, a)] }

/-- Record the address of a host API (`set_endhost_api_addr`). -/
def IoConfig.set_endhost_api_addr (io : IoConfig) (id : Nat) (a : SocketAddr) : IoConfig :=
  { io with endhostApiAddrs := io.endhostApiAddrs ++ [(id, a)] }

/-- Interface-number validation of the router loop:
`NonZeroU16::new(i).context("Interface ID must be non-zero")`. -/
def parseInterfaceId (n : Nat) : Except LoadError Nat :=
  if n = 0 then .error .invalidInterfaceId else .ok n

/-- Validate a router's interface list as the
`collect::<Result<Vec<_>, _>>` in the router loop does. -/
def parseInterfaceIds : List Nat → Except LoadError (List Nat)
  | [] => .ok []
  | n :: rest =>
    match parseInterfaceId n with
    | .error e => .error e
    | .ok m =>
      match parseInterfaceIds rest with
      | .error e => .error e
      | .ok l => .ok (m :: l)

/-- The full parsing path of one interface number: serde's `u16`
deserialization followed by the non-zero check. -/
def parseInterfaceNumber (n : Nat) : Except LoadError Nat :=
  match deserializeU16 n with
  | .error e => .error e
  | .ok m => parseInterfaceId m

/-- Parse the identifier list of a host API as the
`collect::<Result<Vec<_>, _>>` in the endhost-API loop does. -/
def parseIsdList : List String → Except LoadError (List IsdAsn)
  | [] => .ok []
  | s :: rest =>
    match parseIsdAsn s with
    | .error e => .error e
    | .ok a =>
      match parseIsdList rest with
      | .error e => .error e
      | .ok l => .ok (a :: l)

/-- Process the data planes of one access point: parse the AS identifier,
register the data plane with an RNG seeded with the constant 10, and
record its listening address in the overlay. -/
def processDataPlanes (snapId : Nat) :
    SystemState → IoConfig → List DataPlaneConfig → Except LoadError (SystemState × IoConfig)
  | st, io, [] => .ok (st, io)
  | st, io, dp :: rest =>
    match parseIsdAsn dp.isd_as with
    | .error e => .error e
    | .ok ia =>
      let r := st.add_snap_data_plane snapId ia dp.address_range (Rng.seed_from_u64 10)
      processDataPlanes snapId r.2 (io.set_snap_data_plane_addr r.1 dp.listening_addr) rest

/-- Process the access-point list of the configuration (the `snaps` loop
of `main`). -/
def processSnaps : SystemState → IoConfig → List SnapConfig → Except LoadError (SystemState × IoConfig)
  | st, io, [] => .ok (st, io)
  | st, io, s :: rest =>
    let r := st.add_snap
    match processDataPlanes r.1 r.2 (io.set_snap_control_addr r.1 s.listening_addr) s.data_planes with
    | .error e => .error e
    | .ok p => processSnaps p.1 p.2 rest

/-- Process one host-API declaration (body of the `endhost_apis` loop
of `main`). -/
def processEndhostApi (st : SystemState) (io : IoConfig) (api : EndhostApiConfig) :
    Except LoadError (SystemState × IoConfig) :=
  match parseIsdList api.isds with
  | .error e => .error e
  | .ok l =>
    let r := st.add_endhost_api l
    .ok (r.2, io.set_endhost_api_addr r.1 api.listening_addr)

/-- Process the host-API list of the configuration. -/
def processEndhostApis : SystemState → IoConfig → List EndhostApiConfig → Except LoadError (SystemState × IoConfig)
  | st, io, [] => .ok (st, io)
  | st, io, a :: rest =>
    match processEndhostApi st io a with
    | .error e => .error e
    | .ok p => processEndhostApis p.1 p.2 rest

/-- Process one router declaration (body of the `routers` loop of `main`):
parse the AS identifier, validate the interfaces, register the router.
No overlay entry is recorded for a router. -/
def processRouter (st : SystemState) (io : IoConfig) (r : RouterConfig) :
    Except LoadError (SystemState × IoConfig) :=
  match parseIsdAsn r.isd_as with
  | .error e => .error e
  | .ok a =>
    match parseInterfaceIds r.interfaces with
    | .error e => .error e
    | .ok ifs => .ok (st.add_router a ifs r.local_addresses r.next_hops, io)

/-- Process the router list of the configuration. -/
def processRouters : SystemState → IoConfig → List RouterConfig → Except LoadError (SystemState × IoConfig)
  | st, io, [] => .ok (st, io)
  | st, io, r :: rest =>
    match processRouter st io r with
    | .error e => .error e
    | .ok p => processRouters p.1 p.2 rest

/-- System state right after `set_topology`, before any entity is added. -/
def initState (t : ScionTopology) : SystemState :=
  SystemState.new.set_topology t

/-- The configuration-load operation of `main`, up to the point where the
composed model is handed to the runtime builder: deserialize the
document, build the topology, then run the three assembly loops. Any
failure aborts the whole load; a model is produced only on full success. -/
def runConfigurator (j : PocketScionJson) :
    Except LoadError (SystemState × IoConfig × SocketAddr) :=
  match deserializeConfig j with
  | .error e => .error e
  | .ok cfg =>
    match build_topology_from_config cfg.topology with
    | .error e => .error e
    | .ok topo =>
      match processSnaps (initState topo) IoConfig.new (cfg.snaps.getD []) with
      | .error e => .error e
      | .ok p1 =>
        match processEndhostApis p1.1 p1.2 (cfg.endhost_apis.getD []) with
        | .error e => .error e
        | .ok p2 =>
          match processRouters p2.1 p2.2 (cfg.routers.getD []) with
          | .error e => .error e
          | .ok p3 => .ok (p3.1, p3.2, cfg.management_listen_addr)

/-- All data planes of a list of access-point configs, in declaration
order. -/
def allDataPlanes : List SnapConfig → List DataPlaneConfig
  | [] => []
  | s :: rest => s.data_planes ++ allDataPlanes rest

/-- Parse a link string and add it to the topology, as the link loop of
`build_topology_from_config` does for one entry. -/
def add_link_str (t : ScionTopology) (s : String) : Except LoadError ScionTopology :=
  match parseLink s with
  | .error e => .error e
  | .ok l => t.add_link l

/-- Document with an empty topology and no management listen address. -/
def jNoMgmt : PocketScionJson := ⟨some ⟨some [], some []⟩, none, none, none, none⟩

/-- Topology section of end-to-end scenario A: two ASes and one link. -/
def topoCfgA : TopologyConfig :=
  ⟨[⟨"1-11", true⟩, ⟨"1-12", false⟩], ["1-11:1-12"]⟩

/-- Topology produced for scenario A. -/
def topoA : ScionTopology :=
  ⟨[⟨⟨1, 11⟩, true⟩, ⟨⟨1, 12⟩, false⟩], [(⟨1, 11⟩, ⟨1, 12⟩)]⟩

/-- Document declaring a single router and nothing else. -/
def jRouterOnly : PocketScionJson :=
  ⟨some ⟨some [], some []⟩, none, none,
    some [⟨some ("1-11"), some [1], none, none⟩], some ("127.0.0.1:9")⟩

/-- Model produced for `jRouterOnly`. -/
def mRouterOnly : SystemState × IoConfig × SocketAddr :=
  (⟨1, some ⟨[], []⟩, [], [], [], [(0, ⟨⟨1, 11⟩, [1], [], []⟩)]⟩,
    ⟨[], [], []⟩, "127.0.0.1:9")

/-- Document with one access point (one data plane), one host API and one
router. -/
def jFull : PocketScionJson :=
  ⟨some ⟨some [], some []⟩,
    some [⟨some ("ctl"), some [⟨some ("1-11"), some ("dpa"), some [("10.0.0.0/24")]⟩]⟩],
    some [⟨some ["1-11"], some ("eha")⟩],
    some [⟨some ("1-11"), some [1, 2], none, none⟩],
    some ("mgmt")⟩

/-- Deserialized form of `jFull`. -/
def cfgFull : PocketScionConfig :=
  ⟨⟨[], []⟩,
    some [⟨("ctl"), [⟨("1-11"), ("dpa"), [("10.0.0.0/24")]⟩]⟩],
    some [⟨["1-11"], ("eha")⟩],
    some [⟨("1-11"), [1, 2], [], []⟩],
    ("mgmt")⟩

/-- Data plane registered while loading `jFull`. -/
def dpFull : SnapDataPlane := ⟨0, ⟨1, 11⟩, [("10.0.0.0/24")], ⟨10⟩⟩

/-- System state produced for `jFull`. -/
def stFull : SystemState :=
  ⟨4, some ⟨[], []⟩, [0], [(1, dpFull)], [(2, [⟨1, 11⟩])],
    [(3, ⟨⟨1, 11⟩, [1, 2], [], []⟩)]⟩

/-- Binding overlay produced for `jFull`. -/
def ioFull : IoConfig := ⟨[(0, ("ctl"))], [(1, ("dpa"))], [(2, ("eha"))]⟩

/-- Router declaration of end-to-end scenario C, with a zero interface. -/
def routerZeroIf : RouterConfig := ⟨("1-11"), [1, 2, 0], [], []⟩

/-- Document of end-to-end scenario C. -/
def jZeroIf : PocketScionJson :=
  ⟨some ⟨some [], some []⟩, none, none,
    some [⟨some ("1-11"), some [1, 2, 0], none, none⟩], some ("m")⟩

/-- Deserialized form of `jZeroIf`. -/
def cfgZeroIf : PocketScionConfig :=
  ⟨⟨[], []⟩, none, none, some [routerZeroIf], ("m")⟩

/-- Access-point declaration of end-to-end scenario D, with no listening
address. -/
def sjNoAddr : SnapJson := ⟨none, some []⟩

/-- Document of end-to-end scenario D. -/
def jNoSnapAddr : PocketScionJson :=
  ⟨some ⟨some [], some []⟩, some [sjNoAddr], none, none, some ("m")⟩

/-- Document whose host API lists the bare isolation-domain identifier
"1". -/
def jBareIsd : PocketScionJson :=
  ⟨some ⟨some [], some []⟩, none, some [⟨some ["1"], some ("e")⟩], none, some ("m")⟩

/-- Host-API config used as a witness. -/
def apiW : EndhostApiConfig := ⟨["1-11"], ("ea")⟩

/-- Topology with two ASes and no link yet. -/
def tW : ScionTopology := ⟨[⟨⟨1, 11⟩, true⟩, ⟨⟨1, 12⟩, false⟩], []⟩

lemma parseInterfaceId_ok (n m : Nat) (h : parseInterfaceId n = .ok m) : m = n ∧ n ≠ 0 := by
  unfold parseInterfaceId at h
  by_cases hn : n = 0
  · simp [hn] at h
  · simp [hn] at h
    exact ⟨h.symm, hn⟩

lemma parseInterfaceIds_ok (l l2 : List Nat) (h : parseInterfaceIds l = .ok l2) :
    l2 = l ∧ ∀ i ∈ l, i ≠ 0 := by
  induction l generalizing l2 with
  | nil =>
    simp only [parseInterfaceIds] at h
    cases h
    simp
  | cons n rest ih =>
    simp only [parseInterfaceIds] at h
    cases hpi : parseInterfaceId n with
    | error e => rw [hpi] at h; cases h
    | ok m =>
      rw [hpi] at h
      cases hrest : parseInterfaceIds rest with
      | error e => rw [hrest] at h; cases h
      | ok l3 =>
        rw [hrest] at h
        cases h
        obtain ⟨hl3, hall⟩ := ih l3 hrest
        obtain ⟨hm, hn⟩ := parseInterfaceId_ok n m hpi
        subst hm hl3
        refine ⟨rfl, ?_⟩
        intro i hi
        rcases List.mem_cons.mp hi with h1 | h1
        · exact h1 ▸ hn
        · exact hall i h1

lemma parseInterfaceIds_of_nonzero (l : List Nat) (h : ∀ i ∈ l, i ≠ 0) :
    parseInterfaceIds l = .ok l := by
  induction l with
  | nil => simp [parseInterfaceIds]
  | cons n rest ih =>
    have hn : n ≠ 0 := h n (List.mem_cons_self n rest)
    have hrest := ih (fun i hi => h i (List.mem_cons_of_mem n hi))
    simp [parseInterfaceIds, parseInterfaceId, hn, hrest]

lemma parseInterfaceIds_zero_mem (l : List Nat) (h : 0 ∈ l) :
    parseInterfaceIds l = .error .invalidInterfaceId := by
  induction l with
  | nil => cases h
  | cons n rest ih =>
    by_cases hn : n = 0
    · simp [parseInterfaceIds, parseInterfaceId, hn]
    · have h0 : 0 ∈ rest := by
        rcases List.mem_cons.mp h with h1 | h1
        · exact absurd h1.symm hn
        · exact h1
      simp [parseInterfaceIds, parseInterfaceId, hn, ih h0]

lemma parseIsdAsn_not_ok (s : String) (h : (parseIsdAsn s).isOk = false) :
    parseIsdAsn s = .error (.invalidIdentifier s) := by
  unfold parseIsdAsn at h ⊢
  cases hp : parseIsdAsnChars s.data with
  | none => rfl
  | some a => rw [hp] at h; cases h

lemma parseIsdList_first_bad (pre : List String) (s : String) (post : List String)
    (hpre : ∀ x ∈ pre, (parseIsdAsn x).isOk)
    (hs : (parseIsdAsn s).isOk = false) :
    parseIsdList (pre ++ s :: post) = .error (.invalidIdentifier s) := by
  induction pre with
  | nil =>
    simp only [List.nil_append, parseIsdList]
    rw [parseIsdAsn_not_ok s hs]
  | cons x rest ih =>
    have hx : (parseIsdAsn x).isOk := hpre x (List.mem_cons_self x rest)
    cases hpx : parseIsdAsn x with
    | error e => rw [hpx] at hx; cases hx
    | ok a =>
      have hrest := ih (fun y hy => hpre y (List.mem_cons_of_mem x hy))
      have hrest2 : parseIsdList (rest.append (s :: post)) = .error (.invalidIdentifier s) := hrest
      simp only [List.cons_append, parseIsdList]
      rw [hpx, hrest2]

lemma deserializeU16List_of_lt (l : List Nat) (h : ∀ i ∈ l, i < 65536) :
    deserializeU16List l = .ok l := by
  induction l with
  | nil => simp [deserializeU16List]
  | cons n rest ih =>
    have hn : n < 65536 := h n (List.mem_cons_self n rest)
    have hrest := ih (fun i hi => h i (List.mem_cons_of_mem n hi))
    simp [deserializeU16List, deserializeU16, hn, hrest]

lemma deserializeSnaps_ok_mem (l : List SnapJson) (cs : List SnapConfig)
    (h : deserializeSnaps l = .ok cs) : ∀ s ∈ l, (deserializeSnap s).isOk := by
  induction l generalizing cs with
  | nil => intro s hs; cases hs
  | cons x rest ih =>
    intro s hs
    simp only [deserializeSnaps] at h
    cases hx : deserializeSnap x with
    | error e => rw [hx] at h; cases h
    | ok c =>
      rw [hx] at h
      cases hrest : deserializeSnaps rest with
      | error e => rw [hrest] at h; cases h
      | ok cs2 =>
        rcases List.mem_cons.mp hs with h1 | h1
        · subst h1; simp [hx, Except.isOk, Except.toBool]
        · exact ih cs2 hrest s h1

lemma run_ok_cases (j : PocketScionJson) (m : SystemState × IoConfig × SocketAddr)
    (h : runConfigurator j = .ok m) :
    ∃ cfg topo p1 p2 p3,
      deserializeConfig j = .ok cfg ∧
      build_topology_from_config cfg.topology = .ok topo ∧
      processSnaps (initState topo) IoConfig.new (cfg.snaps.getD []) = .ok p1 ∧
      processEndhostApis p1.1 p1.2 (cfg.endhost_apis.getD []) = .ok p2 ∧
      processRouters p2.1 p2.2 (cfg.routers.getD []) = .ok p3 ∧
      m = (p3.1, p3.2, cfg.management_listen_addr) := by
  unfold runConfigurator at h
  split at h
  · cases h
  · rename_i cfg h1
    split at h
    · cases h
    · rename_i topo h2
      split at h
      · cases h
      · rename_i p1 h3
        split at h
        · cases h
        · rename_i p2 h4
          split at h
          · cases h
          · rename_i p3 h5
            cases h
            exact ⟨cfg, topo, p1, p2, p3, h1, h2, h3, h4, h5, rfl⟩

lemma deserializeOptList_some_ok {α β : Type} (f : List α → Except LoadError (List β))
    (l : List α) (r : Option (List β)) (h : deserializeOptList f (some l) = .ok r) :
    ∃ cs, f l = .ok cs := by
  simp only [deserializeOptList] at h
  cases h4 : f l with
  | error e => rw [h4] at h; cases h
  | ok cs => exact ⟨cs, rfl⟩

lemma deserializeConfig_ok_snaps (j : PocketScionJson) (cfg : PocketScionConfig)
    (l : List SnapJson) (h : deserializeConfig j = .ok cfg) (hs : j.snaps = some l) :
    ∃ cs, deserializeSnaps l = .ok cs := by
  unfold deserializeConfig at h
  split at h
  · cases h
  · rename_i tj h1
    split at h
    · cases h
    · rename_i tc h2
      split at h
      · cases h
      · rename_i sOpt h3
        rw [hs] at h3
        exact deserializeOptList_some_ok deserializeSnaps l sOpt h3

lemma processRouters_ok_nonzero (rs : List RouterConfig) :
    ∀ st io p, processRouters st io rs = .ok p → ∀ r ∈ rs, ∀ i ∈ r.interfaces, i ≠ 0 := by
  induction rs with
  | nil => intro st io p h r hr; cases hr
  | cons y rest ih =>
    intro st io p h r hr
    simp only [processRouters] at h
    cases hx : processRouter st io y with
    | error e => rw [hx] at h; cases h
    | ok q =>
      rw [hx] at h
      rcases List.mem_cons.mp hr with h1 | h1
      · subst h1
        unfold processRouter at hx
        cases hpa : parseIsdAsn r.isd_as with
        | error e => rw [hpa] at hx; cases hx
        | ok a =>
          rw [hpa] at hx
          cases hpi : parseInterfaceIds r.interfaces with
          | error e => rw [hpi] at hx; cases hx
          | ok ifs => exact (parseInterfaceIds_ok _ _ hpi).2
      · exact ih q.1 q.2 p h r h1

lemma processRouters_ok_spec (rs : List RouterConfig) :
    ∀ st io st' io', processRouters st io rs = .ok (st', io') →
      io' = io ∧ st'.snaps = st.snaps ∧ st'.snapDataPlanes = st.snapDataPlanes ∧
      st'.endhostApis = st.endhostApis := by
  induction rs with
  | nil =>
    intro st io st' io' h
    simp only [processRouters] at h
    cases h
    exact ⟨rfl, rfl, rfl, rfl⟩
  | cons y rest ih =>
    intro st io st' io' h
    simp only [processRouters] at h
    cases hx : processRouter st io y with
    | error e => rw [hx] at h; cases h
    | ok q =>
      rw [hx] at h
      obtain ⟨a1, a2, a3, a4⟩ := ih q.1 q.2 st' io' h
      unfold processRouter at hx
      cases hpa : parseIsdAsn y.isd_as with
      | error e => rw [hpa] at hx; cases hx
      | ok a =>
        rw [hpa] at hx
        cases hpi : parseInterfaceIds y.interfaces with
        | error e => rw [hpi] at hx; cases hx
        | ok ifs =>
          rw [hpi] at hx
          cases hx
          refine ⟨a1, ?_, ?_, ?_⟩ <;>
            simp_all [SystemState.add_router]

lemma processEndhostApis_ok_spec (apis : List EndhostApiConfig) :
    ∀ st io st' io', processEndhostApis st io apis = .ok (st', io') →
      st'.snaps = st.snaps ∧ st'.snapDataPlanes = st.snapDataPlanes ∧ st'.routers = st.routers ∧
      io'.snapControlAddrs = io.snapControlAddrs ∧
      io'.snapDataPlaneAddrs = io.snapDataPlaneAddrs ∧
      io'.endhostApiAddrs.map Prod.snd
        = io.endhostApiAddrs.map Prod.snd ++ apis.map (fun a => a.listening_addr) ∧
      (io.endhostApiAddrs.map Prod.fst = st.endhostApis.map Prod.fst →
        io'.endhostApiAddrs.map Prod.fst = st'.endhostApis.map Prod.fst) := by
  induction apis with
  | nil =>
    intro st io st' io' h
    simp only [processEndhostApis] at h
    cases h
    simp
  | cons y rest ih =>
    intro st io st' io' h
    simp only [processEndhostApis] at h
    cases hx : processEndhostApi st io y with
    | error e => rw [hx] at h; cases h
    | ok q =>
      rw [hx] at h
      obtain ⟨a1, a2, a3, a4, a5, a6, a7⟩ := ih q.1 q.2 st' io' h
      unfold processEndhostApi at hx
      cases hpl : parseIsdList y.isds with
      | error e => rw [hpl] at hx; cases hx
      | ok l =>
        rw [hpl] at hx
        cases hx
        refine ⟨a1, a2, a3, a4, a5, ?_, ?_⟩
        · rw [a6]
          simp [IoConfig.set_endhost_api_addr, List.append_assoc]
        · intro hfst
          apply a7
          simp [IoConfig.set_endhost_api_addr, SystemState.add_endhost_api, hfst]

lemma processDataPlanes_ok_spec (sid : Nat) (dps : List DataPlaneConfig) :
    ∀ st io st' io', processDataPlanes sid st io dps = .ok (st', io') →
      st'.snaps = st.snaps ∧ st'.endhostApis = st.endhostApis ∧ st'.routers = st.routers ∧
      io'.snapControlAddrs = io.snapControlAddrs ∧
      io'.endhostApiAddrs = io.endhostApiAddrs ∧
      io'.snapDataPlaneAddrs.map Prod.snd
        = io.snapDataPlaneAddrs.map Prod.snd ++ dps.map (fun d => d.listening_addr) ∧
      (io.snapDataPlaneAddrs.map Prod.fst = st.snapDataPlanes.map Prod.fst →
        io'.snapDataPlaneAddrs.map Prod.fst = st'.snapDataPlanes.map Prod.fst) ∧
      (∀ p ∈ st'.snapDataPlanes, p ∈ st.snapDataPlanes ∨ p.2.rng = Rng.seed_from_u64 10) := by
  induction dps with
  | nil =>
    intro st io st' io' h
    simp only [processDataPlanes] at h
    cases h
    refine ⟨rfl, rfl, rfl, rfl, rfl, by simp, fun hf => hf, fun p hp => Or.inl hp⟩
  | cons d rest ih =>
    intro st io st' io' h
    simp only [processDataPlanes] at h
    cases hpa : parseIsdAsn d.isd_as with
    | error e => rw [hpa] at h; cases h
    | ok ia =>
      rw [hpa] at h
      obtain ⟨a1, a2, a3, a4, a5, a6, a7, a8⟩ := ih _ _ st' io' h
      refine ⟨?_, ?_, ?_, ?_, ?_, ?_, ?_, ?_⟩
      · rw [a1]; rfl
      · rw [a2]; rfl
      · rw [a3]; rfl
      · rw [a4]; rfl
      · rw [a5]; rfl
      · rw [a6]
        simp [IoConfig.set_snap_data_plane_addr, SystemState.add_snap_data_plane,
          List.append_assoc]
      · intro hfst
        apply a7
        simp [IoConfig.set_snap_data_plane_addr, SystemState.add_snap_data_plane, hfst]
      · intro p hp
        rcases a8 p hp with h1 | h1
        · simp only [SystemState.add_snap_data_plane] at h1
          rcases List.mem_append.mp h1 with h2 | h2
          · exact Or.inl h2
          · right
            rcases List.mem_singleton.mp h2 with h3
            rw [h3]
        · exact Or.inr h1

lemma processSnaps_ok_spec (snaps : List SnapConfig) :
    ∀ st io st' io', processSnaps st io snaps = .ok (st', io') →
      st'.endhostApis = st.endhostApis ∧ st'.routers = st.routers ∧
      io'.endhostApiAddrs = io.endhostApiAddrs ∧
      io'.snapControlAddrs.map Prod.snd
        = io.snapControlAddrs.map Prod.snd ++ snaps.map (fun s => s.listening_addr) ∧
      (io.snapControlAddrs.map Prod.fst = st.snaps →
        io'.snapControlAddrs.map Prod.fst = st'.snaps) ∧
      io'.snapDataPlaneAddrs.map Prod.snd
        = io.snapDataPlaneAddrs.map Prod.snd
          ++ (allDataPlanes snaps).map (fun d => d.listening_addr) ∧
      (io.snapDataPlaneAddrs.map Prod.fst = st.snapDataPlanes.map Prod.fst →
        io'.snapDataPlaneAddrs.map Prod.fst = st'.snapDataPlanes.map Prod.fst) ∧
      (∀ p ∈ st'.snapDataPlanes, p ∈ st.snapDataPlanes ∨ p.2.rng = Rng.seed_from_u64 10) := by
  induction snaps with
  | nil =>
    intro st io st' io' h
    simp only [processSnaps] at h
    cases h
    refine ⟨rfl, rfl, rfl, by simp, fun hf => hf, by simp [allDataPlanes], fun hf => hf,
      fun p hp => Or.inl hp⟩
  | cons s rest ih =>
    intro st io st' io' h
    simp only [processSnaps] at h
    cases hdp : processDataPlanes st.add_snap.1 st.add_snap.2
        (io.set_snap_control_addr st.add_snap.1 s.listening_addr) s.data_planes with
    | error e => rw [hdp] at h; cases h
    | ok q =>
      rw [hdp] at h
      obtain ⟨b1, b2, b3, b4, b5, b6, b7, b8⟩ :=
        processDataPlanes_ok_spec st.add_snap.1 s.data_planes _ _ q.1 q.2 hdp
      obtain ⟨a1, a2, a3, a4, a5, a6, a7, a8⟩ := ih q.1 q.2 st' io' h
      refine ⟨?_, ?_, ?_, ?_, ?_, ?_, ?_, ?_⟩
      · rw [a1, b2]; rfl
      · rw [a2, b3]; rfl
      · rw [a3, b5]; rfl
      · rw [a4, b4]
        simp [IoConfig.set_snap_control_addr, List.append_assoc]
      · intro hfst
        apply a5
        rw [b4, b1]
        simp [IoConfig.set_snap_control_addr, SystemState.add_snap, hfst]
      · rw [a6, b6]
        simp [IoConfig.set_snap_control_addr, SystemState.add_snap, allDataPlanes,
          List.append_assoc]
      · intro hfst
        apply a7
        apply b7
        simpa [IoConfig.set_snap_control_addr, SystemState.add_snap] using hfst
      · intro p hp
        rcases a8 p hp with h1 | h1
        · rcases b8 p h1 with h2 | h2
          · simp only [SystemState.add_snap] at h2
            exact Or.inl h2
          · exact Or.inr h2
        · exact Or.inr h1

/-- C1: every validation failure in any stage of the configuration load
(deserialization, topology build, access-point, host-API or router
assembly) aborts the whole load with that error, and a model
(system state, overlay, management address) is produced only when every
stage succeeds — configuration loading is all-or-nothing. -/
theorem spec_c1_load_all_or_nothing (j : PocketScionJson) :
    (∀ e, deserializeConfig j = .error e → runConfigurator j = .error e) ∧
    (∀ cfg e, deserializeConfig j = .ok cfg →
      build_topology_from_config cfg.topology = .error e → runConfigurator j = .error e) ∧
    (∀ cfg topo e, deserializeConfig j = .ok cfg →
      build_topology_from_config cfg.topology = .ok topo →
      processSnaps (initState topo) IoConfig.new (cfg.snaps.getD []) = .error e →
      runConfigurator j = .error e) ∧
    (∀ cfg topo p1 e, deserializeConfig j = .ok cfg →
      build_topology_from_config cfg.topology = .ok topo →
      processSnaps (initState topo) IoConfig.new (cfg.snaps.getD []) = .ok p1 →
      processEndhostApis p1.1 p1.2 (cfg.endhost_apis.getD []) = .error e →
      runConfigurator j = .error e) ∧
    (∀ cfg topo p1 p2 e, deserializeConfig j = .ok cfg →
      build_topology_from_config cfg.topology = .ok topo →
      processSnaps (initState topo) IoConfig.new (cfg.snaps.getD []) = .ok p1 →
      processEndhostApis p1.1 p1.2 (cfg.endhost_apis.getD []) = .ok p2 →
      processRouters p2.1 p2.2 (cfg.routers.getD []) = .error e →
      runConfigurator j = .error e) ∧
    (∀ m, runConfigurator j = .ok m →
      ∃ cfg topo p1 p2 p3,
        deserializeConfig j = .ok cfg ∧
        build_topology_from_config cfg.topology = .ok topo ∧
        processSnaps (initState topo) IoConfig.new (cfg.snaps.getD []) = .ok p1 ∧
        processEndhostApis p1.1 p1.2 (cfg.endhost_apis.getD []) = .ok p2 ∧
        processRouters p2.1 p2.2 (cfg.routers.getD []) = .ok p3 ∧
        m = (p3.1, p3.2, cfg.management_listen_addr)) := by
  refine ⟨?_, ?_, ?_, ?_, ?_, ?_⟩
  · intro e h1
    simp [runConfigurator, h1]
  · intro cfg e h1 h2
    simp [runConfigurator, h1, h2]
  · intro cfg topo e h1 h2 h3
    simp [runConfigurator, h1, h2, h3]
  · intro cfg topo p1 e h1 h2 h3 h4
    simp [runConfigurator, h1, h2, h3, h4]
  · intro cfg topo p1 p2 e h1 h2 h3 h4 h5
    simp [runConfigurator, h1, h2, h3, h4, h5]
  · exact fun m h => run_ok_cases j m h

/-- Witness for C1 at a concrete document missing the management listen
address: deserialization fails and the whole load reports that error. -/
theorem spec_c1_load_all_or_nothing_witness :
    deserializeConfig jNoMgmt = .error (.missingRequiredAddress ("management_listen_addr")) ∧
    runConfigurator jNoMgmt = .error (.missingRequiredAddress ("management_listen_addr")) :=
  ⟨by decide, (spec_c1_load_all_or_nothing jNoMgmt).1 _ (by decide)⟩

/-- C3 counterexample: 65536 is a positive integer, yet parsing it as an
interface number fails (the `interfaces` field is typed `Vec<u16>`, so
serde rejects values of 2^16 or more), refuting "parsing any positive
integer string succeeds". -/
theorem spec_c3_interface_parse_counterexample :
    0 < 65536 ∧
    parseInterfaceNumber 65536 = .error (.malformedDocument ("integer out of range for u16")) := by
  decide

/-- C3 amended: parsing the interface number 0 always fails with
`InvalidInterfaceId`, and parsing any positive integer that fits in a
`u16` (below 2^16) succeeds and round-trips to the same numeric value. -/
theorem spec_c3_interface_parse_amended (n : Nat) (h1 : 0 < n) (h2 : n < 65536) :
    parseInterfaceNumber 0 = .error .invalidInterfaceId ∧
    parseInterfaceNumber n = .ok n := by
  refine ⟨by decide, ?_⟩
  have hn : n ≠ 0 := Nat.pos_iff_ne_zero.mp h1
  simp [parseInterfaceNumber, deserializeU16, parseInterfaceId, h2, hn]

/-- Witness for C3 at the interface number 3. -/
theorem spec_c3_interface_parse_amended_witness :
    0 < 3 ∧ 3 < 65536 ∧
    (parseInterfaceNumber 0 = .error .invalidInterfaceId ∧ parseInterfaceNumber 3 = .ok 3) :=
  ⟨by decide, by decide, spec_c3_interface_parse_amended 3 (by decide) (by decide)⟩

/-- C4: a router declaration whose interface list contains 0 makes the
whole document load fail (no model, hence no registered router, is ever
returned), and the interface validation of that router fails with
`InvalidInterfaceId`. -/
theorem spec_c4_zero_interface_rejected (j : PocketScionJson) (cfg : PocketScionConfig)
    (rl : List RouterConfig) (r : RouterConfig)
    (h1 : deserializeConfig j = .ok cfg) (h2 : cfg.routers = some rl)
    (h3 : r ∈ rl) (h4 : 0 ∈ r.interfaces) :
    (runConfigurator j).isOk = false ∧
    parseInterfaceIds r.interfaces = .error .invalidInterfaceId := by
  refine ⟨?_, parseInterfaceIds_zero_mem r.interfaces h4⟩
  cases hrun : runConfigurator j with
  | error e => rfl
  | ok m =>
    obtain ⟨cfg2, topo, p1, p2, p3, g1, g2, g3, g4, g5, g6⟩ := run_ok_cases j m hrun
    have hc : cfg = cfg2 := Except.ok.inj (h1.symm.trans g1)
    subst hc
    have hmem : r ∈ cfg.routers.getD [] := by
      rw [h2]
      exact h3
    have hnz := processRouters_ok_nonzero (cfg.routers.getD []) p2.1 p2.2 p3 g5 r hmem 0 h4
    exact absurd rfl hnz

/-- Witness for C4 at end-to-end scenario C (`interfaces: [1, 2, 0]`);
the concrete load indeed fails with `InvalidInterfaceId`. -/
theorem spec_c4_zero_interface_rejected_witness :
    runConfigurator jZeroIf = .error .invalidInterfaceId ∧
    deserializeConfig jZeroIf = .ok cfgZeroIf ∧
    ((runConfigurator jZeroIf).isOk = false ∧
      parseInterfaceIds routerZeroIf.interfaces = .error .invalidInterfaceId) :=
  ⟨by decide, by decide,
    spec_c4_zero_interface_rejected jZeroIf cfgZeroIf [routerZeroIf] routerZeroIf
      (by decide) (by decide) (by decide) (by decide)⟩

/-- C7: end-to-end scenario A — the two-AS one-link document produces a
topology with exactly 2 AS nodes and 1 link, and building it twice from
the same document yields the same topology value. -/
theorem spec_c7_scenario_a :
    build_topology_from_config topoCfgA = .ok topoA ∧
    topoA.ases.length = 2 ∧ topoA.links.length = 1 ∧
    build_topology_from_config topoCfgA = build_topology_from_config topoCfgA := by
  decide

/-- C6: for a link spec parsing to two endpoints, if both endpoints were
previously added to the topology then adding the link succeeds and the
link count increases by exactly one; if either endpoint is missing it
fails with `UnknownAsInLink`. -/
theorem spec_c6_add_link (t : ScionTopology) (s : String) (l : Link)
    (hp : parseLink s = .ok l) :
    ((t.containsAs l.1 = true ∧ t.containsAs l.2 = true) →
      add_link_str t s = .ok ⟨t.ases, t.links ++ [l]⟩ ∧
      (⟨t.ases, t.links ++ [l]⟩ : ScionTopology).links.length = t.links.length + 1) ∧
    (¬(t.containsAs l.1 = true ∧ t.containsAs l.2 = true) →
      add_link_str t s = .error (.unknownAsInLink l.1) ∨
      add_link_str t s = .error (.unknownAsInLink l.2)) := by
  constructor
  · rintro ⟨hb1, hb2⟩
    simp only [add_link_str, hp, ScionTopology.add_link]
    rw [hb1, hb2]
    simp
  · intro hno
    simp only [add_link_str, hp, ScionTopology.add_link]
    by_cases hb1 : t.containsAs l.1 = true
    · have hb2 : ¬t.containsAs l.2 = true := fun hb2 => hno ⟨hb1, hb2⟩
      rw [hb1]
      simp [hb2]
    · simp [hb1]

/-- Witness for C6: adding the link "1-11:1-12" to a topology that
already contains both ASes. -/
theorem spec_c6_add_link_witness :
    parseLink ("1-11:1-12") = .ok ((⟨1, 11⟩, ⟨1, 12⟩) : Link) ∧
    (tW.containsAs ⟨1, 11⟩ = true ∧ tW.containsAs ⟨1, 12⟩ = true) ∧
    (add_link_str tW ("1-11:1-12") = .ok ⟨tW.ases, tW.links ++ [(⟨1, 11⟩, ⟨1, 12⟩)]⟩ ∧
      (⟨tW.ases, tW.links ++ [(⟨1, 11⟩, ⟨1, 12⟩)]⟩ : ScionTopology).links.length
        = tW.links.length + 1) :=
  ⟨by decide, by decide,
    (spec_c6_add_link tW ("1-11:1-12") ((⟨1, 11⟩, ⟨1, 12⟩) : Link) (by decide)).1 (by decide)⟩

/-- C8: a document containing an access-point declaration with no
listening address never produces a model (the load fails, so no partial
entity is exposed), and that declaration itself deserializes to
`MissingRequiredAddress`. -/
theorem spec_c8_missing_snap_addr (j : PocketScionJson) (l : List SnapJson) (sj : SnapJson)
    (h1 : j.snaps = some l) (h2 : sj ∈ l) (h3 : sj.listening_addr = none) :
    deserializeSnap sj = .error (.missingRequiredAddress ("snap listening_addr")) ∧
    (runConfigurator j).isOk = false := by
  have hds : deserializeSnap sj = .error (.missingRequiredAddress ("snap listening_addr")) := by
    unfold deserializeSnap
    rw [h3]
  refine ⟨hds, ?_⟩
  cases hrun : runConfigurator j with
  | error e => rfl
  | ok m =>
    obtain ⟨cfg, topo, p1, p2, p3, g1, g2, g3, g4, g5, g6⟩ := run_ok_cases j m hrun
    obtain ⟨cs, hcs⟩ := deserializeConfig_ok_snaps j cfg l g1 h1
    have hok := deserializeSnaps_ok_mem l cs hcs sj h2
    rw [hds] at hok
    simp [Except.isOk, Except.toBool] at hok

/-- Witness for C8 at end-to-end scenario D; the concrete load reports
`MissingRequiredAddress`. -/
theorem spec_c8_missing_snap_addr_witness :
    runConfigurator jNoSnapAddr = .error (.missingRequiredAddress ("snap listening_addr")) ∧
    jNoSnapAddr.snaps = some [sjNoAddr] ∧ sjNoAddr ∈ [sjNoAddr] ∧
    sjNoAddr.listening_addr = none ∧
    (deserializeSnap sjNoAddr = .error (.missingRequiredAddress ("snap listening_addr")) ∧
      (runConfigurator jNoSnapAddr).isOk = false) :=
  ⟨by decide, by decide, by decide, by decide,
    spec_c8_missing_snap_addr jNoSnapAddr [sjNoAddr] sjNoAddr (by decide) (by decide) (by decide)⟩

/-- C9: a router declaration deserializes without `local_addresses` and
`next_hops` (they default to empty), these are the only optional fields
(`isd_as` and `interfaces` are required), and the router registered from
such a declaration carries an empty local-address list and next-hop
map. -/
theorem spec_c9_router_optional_fields (s : String) (ifs : List Nat)
    (la : Option (List IpNet)) (nh : Option (List (String × SocketAddr)))
    (a : IsdAsn) (st : SystemState) (io : IoConfig)
    (hr : ∀ i ∈ ifs, i < 65536)
    (hpa : parseIsdAsn s = .ok a)
    (hnz : ∀ i ∈ ifs, i ≠ 0) :
    deserializeRouter ⟨some s, some ifs, none, none⟩ = .ok ⟨s, ifs, [], []⟩ ∧
    deserializeRouter ⟨none, some ifs, la, nh⟩
      = .error (.malformedDocument ("missing field isd_as")) ∧
    deserializeRouter ⟨some s, none, la, nh⟩
      = .error (.malformedDocument ("missing field interfaces")) ∧
    processRouter st io ⟨s, ifs, [], []⟩ = .ok (st.add_router a ifs [] [], io) := by
  refine ⟨?_, rfl, rfl, ?_⟩
  · simp [deserializeRouter, deserializeU16List_of_lt ifs hr]
  · simp [processRouter, hpa, parseInterfaceIds_of_nonzero ifs hnz]

/-- Witness for C9 at a concrete router declaration. -/
theorem spec_c9_router_optional_fields_witness :
    (∀ i ∈ [1, 2], i < 65536) ∧ parseIsdAsn ("1-11") = .ok ⟨1, 11⟩ ∧ (∀ i ∈ [1, 2], i ≠ 0) ∧
    (deserializeRouter ⟨some ("1-11"), some [1, 2], none, none⟩ = .ok ⟨("1-11"), [1, 2], [], []⟩ ∧
      deserializeRouter ⟨none, some [1, 2], none, none⟩
        = .error (.malformedDocument ("missing field isd_as")) ∧
      deserializeRouter ⟨some ("1-11"), none, none, none⟩
        = .error (.malformedDocument ("missing field interfaces")) ∧
      processRouter SystemState.new IoConfig.new ⟨("1-11"), [1, 2], [], []⟩
        = .ok (SystemState.new.add_router ⟨1, 11⟩ [1, 2] [] [], IoConfig.new)) :=
  ⟨by decide, by decide, by decide,
    spec_c9_router_optional_fields ("1-11") [1, 2] none none ⟨1, 11⟩
      SystemState.new IoConfig.new (by decide) (by decide) (by decide)⟩

/-- C2 counterexample: a document with one router loads successfully, the
model registers one router, yet the binding overlay is completely empty —
no listening address is recorded for a router (the code never calls an
overlay setter in the router loop, and a router config carries no
listening address), refuting "exactly one address for each Router". -/
theorem spec_c2_binding_overlay_counterexample :
    runConfigurator jRouterOnly = .ok mRouterOnly ∧
    mRouterOnly.1.routers.length = 1 ∧
    mRouterOnly.2.1.snapControlAddrs = [] ∧
    mRouterOnly.2.1.snapDataPlaneAddrs = [] ∧
    mRouterOnly.2.1.endhostApiAddrs = [] := by
  decide

/-- C2 amended: on a successful load the binding overlay records exactly
one control address per access point, one address per data plane and one
address per host API — keyed by the identifiers registered in the system
state, with the addresses supplied in configuration — and nothing for
routers (the overlay has no router table). -/
theorem spec_c2_binding_overlay_amended (j : PocketScionJson) (cfg : PocketScionConfig)
    (st : SystemState) (io : IoConfig) (addr : SocketAddr)
    (h1 : runConfigurator j = .ok (st, io, addr))
    (h2 : deserializeConfig j = .ok cfg) :
    io.snapControlAddrs.map Prod.fst = st.snaps ∧
    io.snapControlAddrs.map Prod.snd = (cfg.snaps.getD []).map (fun s2 => s2.listening_addr) ∧
    io.snapDataPlaneAddrs.map Prod.fst = st.snapDataPlanes.map Prod.fst ∧
    io.snapDataPlaneAddrs.map Prod.snd
      = (allDataPlanes (cfg.snaps.getD [])).map (fun d => d.listening_addr) ∧
    io.endhostApiAddrs.map Prod.fst = st.endhostApis.map Prod.fst ∧
    io.endhostApiAddrs.map Prod.snd
      = (cfg.endhost_apis.getD []).map (fun a2 => a2.listening_addr) := by
  obtain ⟨cfg2, topo, p1, p2, p3, g1, g2, g3, g4, g5, g6⟩ := run_ok_cases j (st, io, addr) h1
  have hc : cfg = cfg2 := Except.ok.inj (h2.symm.trans g1)
  subst hc
  have hst : st = p3.1 := congrArg (fun x => x.1) g6
  have hio : io = p3.2 := congrArg (fun x => x.2.1) g6
  have g3' : processSnaps (initState topo) IoConfig.new (cfg.snaps.getD []) = .ok (p1.1, p1.2) := by
    rw [Prod.mk.eta]
    exact g3
  obtain ⟨s1, s2, s3, s4, s5, s6, s7, s8⟩ :=
    processSnaps_ok_spec (cfg.snaps.getD []) _ _ p1.1 p1.2 g3'
  have g4' : processEndhostApis p1.1 p1.2 (cfg.endhost_apis.getD []) = .ok (p2.1, p2.2) := by
    rw [Prod.mk.eta]
    exact g4
  obtain ⟨e1, e2, e3, e4, e5, e6, e7⟩ :=
    processEndhostApis_ok_spec (cfg.endhost_apis.getD []) _ _ p2.1 p2.2 g4'
  have g5' : processRouters p2.1 p2.2 (cfg.routers.getD []) = .ok (p3.1, p3.2) := by
    rw [Prod.mk.eta]
    exact g5
  obtain ⟨r1, r2, r3, r4⟩ := processRouters_ok_spec (cfg.routers.getD []) _ _ p3.1 p3.2 g5'
  refine ⟨?_, ?_, ?_, ?_, ?_, ?_⟩
  · calc io.snapControlAddrs.map Prod.fst
        = p1.2.snapControlAddrs.map Prod.fst := by rw [hio, r1, e4]
      _ = p1.1.snaps := s5 rfl
      _ = st.snaps := by rw [hst, r2, e1]
  · calc io.snapControlAddrs.map Prod.snd
        = p1.2.snapControlAddrs.map Prod.snd := by rw [hio, r1, e4]
      _ = (cfg.snaps.getD []).map (fun s2 => s2.listening_addr) := by
          rw [s4]
          simp [IoConfig.new]
  · calc io.snapDataPlaneAddrs.map Prod.fst
        = p1.2.snapDataPlaneAddrs.map Prod.fst := by rw [hio, r1, e5]
      _ = p1.1.snapDataPlanes.map Prod.fst := s7 rfl
      _ = st.snapDataPlanes.map Prod.fst := by rw [hst, r3, e2]
  · calc io.snapDataPlaneAddrs.map Prod.snd
        = p1.2.snapDataPlaneAddrs.map Prod.snd := by rw [hio, r1, e5]
      _ = (allDataPlanes (cfg.snaps.getD [])).map (fun d => d.listening_addr) := by
          rw [s6]
          simp [IoConfig.new]
  · calc io.endhostApiAddrs.map Prod.fst
        = p2.2.endhostApiAddrs.map Prod.fst := by rw [hio, r1]
      _ = p2.1.endhostApis.map Prod.fst := by
          apply e7
          rw [s3, s1]
          simp [IoConfig.new, initState, SystemState.new, SystemState.set_topology]
      _ = st.endhostApis.map Prod.fst := by rw [hst, r4]
  · calc io.endhostApiAddrs.map Prod.snd
        = p2.2.endhostApiAddrs.map Prod.snd := by rw [hio, r1]
      _ = (cfg.endhost_apis.getD []).map (fun a2 => a2.listening_addr) := by
          rw [e6, s3]
          simp [IoConfig.new]

/-- Witness for C2 at a concrete document with one access point, one data
plane and one host API. -/
theorem spec_c2_binding_overlay_amended_witness :
    runConfigurator jFull = .ok (stFull, ioFull, ("mgmt")) ∧
    deserializeConfig jFull = .ok cfgFull ∧
    (ioFull.snapControlAddrs.map Prod.fst = stFull.snaps ∧
      ioFull.snapControlAddrs.map Prod.snd
        = (cfgFull.snaps.getD []).map (fun s2 => s2.listening_addr) ∧
      ioFull.snapDataPlaneAddrs.map Prod.fst = stFull.snapDataPlanes.map Prod.fst ∧
      ioFull.snapDataPlaneAddrs.map Prod.snd
        = (allDataPlanes (cfgFull.snaps.getD [])).map (fun d => d.listening_addr) ∧
      ioFull.endhostApiAddrs.map Prod.fst = stFull.endhostApis.map Prod.fst ∧
      ioFull.endhostApiAddrs.map Prod.snd
        = (cfgFull.endhost_apis.getD []).map (fun a2 => a2.listening_addr)) :=
  ⟨by decide, by decide,
    spec_c2_binding_overlay_amended jFull cfgFull stFull ioFull ("mgmt")
      (by decide) (by decide)⟩

/-- C5 counterexample: "1" is a well-formed isolation-domain identifier,
yet a host-API declaration listing it fails the whole load with
`InvalidIdentifier` — the entries of `isds[]` are parsed as full ISD-AS
identifiers, not as bare isolation-domain identifiers. -/
theorem spec_c5_endhost_isds_counterexample :
    isIsolationDomainId ("1") = true ∧
    parseIsdAsn ("1") = .error (.invalidIdentifier ("1")) ∧
    runConfigurator jBareIsd = .error (.invalidIdentifier ("1")) := by
  decide

/-- C5 amended: each entry of `isds[]` is parsed as a full AS identifier;
processing a host-API declaration fails with `InvalidIdentifier` at the
first entry that does not parse, and when every entry parses the host API
is assigned the next identifier and registered with exactly one listening
address in the overlay. -/
theorem spec_c5_endhost_api_amended (st : SystemState) (io : IoConfig)
    (api : EndhostApiConfig) (pre : List String) (s : String) (post : List String)
    (l : List IsdAsn)
    (hsplit : api.isds = pre ++ s :: post)
    (hpre : ∀ x ∈ pre, (parseIsdAsn x).isOk) :
    ((parseIsdAsn s).isOk = false →
      processEndhostApi st io api = .error (.invalidIdentifier s)) ∧
    (parseIsdList api.isds = .ok l →
      processEndhostApi st io api =
        .ok ({ st with counter := st.counter + 1,
                       endhostApis := st.endhostApis ++ [(st.counter, l)] },
             { io with endhostApiAddrs
                         := io.endhostApiAddrs ++ [(st.counter, api.listening_addr)] })) := by
  constructor
  · intro hbad
    simp only [processEndhostApi, hsplit, parseIsdList_first_bad pre s post hpre hbad]
  · intro hok
    simp only [processEndhostApi, hok]
    rfl

/-- Witness for C5 at a host API declaring the single identifier
"1-11". -/
theorem spec_c5_endhost_api_amended_witness :
    apiW.isds = [] ++ ("1-11") :: [] ∧
    parseIsdList apiW.isds = .ok [⟨1, 11⟩] ∧
    processEndhostApi SystemState.new IoConfig.new apiW =
      .ok ({ SystemState.new with
              counter := SystemState.new.counter + 1,
              endhostApis := SystemState.new.endhostApis
                ++ [(SystemState.new.counter, [⟨1, 11⟩])] },
           { IoConfig.new with
              endhostApiAddrs := IoConfig.new.endhostApiAddrs
                ++ [(SystemState.new.counter, apiW.listening_addr)] }) :=
  ⟨by decide, by decide,
    (spec_c5_endhost_api_amended SystemState.new IoConfig.new apiW [] ("1-11") [] [⟨1, 11⟩]
      (by decide) (by simp)).2 (by decide)⟩

/-- C10: every data plane registered in a successfully loaded model,
whatever access point it belongs to and wherever it appears in the
configuration, carries a random-number generator seeded with the fixed
constant 10; since the load is a pure function of the document, the RNG
state is also identical across repeated runs of the same
configuration. -/
theorem spec_c10_dataplane_rng_constant (j : PocketScionJson)
    (m : SystemState × IoConfig × SocketAddr) (h : runConfigurator j = .ok m) :
    ∀ p ∈ m.1.snapDataPlanes, p.2.rng = Rng.seed_from_u64 10 := by
  obtain ⟨cfg, topo, p1, p2, p3, g1, g2, g3, g4, g5, g6⟩ := run_ok_cases j m h
  have g3' : processSnaps (initState topo) IoConfig.new (cfg.snaps.getD []) = .ok (p1.1, p1.2) := by
    rw [Prod.mk.eta]
    exact g3
  obtain ⟨s1, s2, s3, s4, s5, s6, s7, s8⟩ :=
    processSnaps_ok_spec (cfg.snaps.getD []) _ _ p1.1 p1.2 g3'
  have g4' : processEndhostApis p1.1 p1.2 (cfg.endhost_apis.getD []) = .ok (p2.1, p2.2) := by
    rw [Prod.mk.eta]
    exact g4
  obtain ⟨e1, e2, e3, e4, e5, e6, e7⟩ :=
    processEndhostApis_ok_spec (cfg.endhost_apis.getD []) _ _ p2.1 p2.2 g4'
  have g5' : processRouters p2.1 p2.2 (cfg.routers.getD []) = .ok (p3.1, p3.2) := by
    rw [Prod.mk.eta]
    exact g5
  obtain ⟨r1, r2, r3, r4⟩ := processRouters_ok_spec (cfg.routers.getD []) _ _ p3.1 p3.2 g5'
  intro p hp
  have hm1 : m.1 = p3.1 := congrArg (fun x => x.1) g6
  rw [hm1, r3, e2] at hp
  rcases s8 p hp with h1 | h1
  · simp [initState, SystemState.new, SystemState.set_topology] at h1
  · exact h1

/-- Witness for C10 at a concrete document whose single data plane indeed
carries the seed-10 RNG. -/
theorem spec_c10_dataplane_rng_constant_witness :
    runConfigurator jFull = .ok (stFull, ioFull, ("mgmt")) ∧
    (1, dpFull) ∈ stFull.snapDataPlanes ∧
    dpFull.rng = Rng.seed_from_u64 10 :=
  ⟨by decide, by decide,
    spec_c10_dataplane_rng_constant jFull (stFull, ioFull, ("mgmt")) (by decide)
      (1, dpFull) (by decide)⟩
